import Mathlib

/-!
Shallow embedding of the football match-tracking core of `src/app.py`
(Football-Data.org client): the rate-limited cached fetch layer
(`football_data_get`, `get_teams_in_league`, `get_team_by_id`,
`get_last_matches_for_team`, `get_league_standings`, the `lru_cache`
decorator) and the match normalization pipeline (`parse_date`,
`build_match_list_from_matches`).

Conventions of the embedding:
- Python `None` on an optional field is `Option.none`; a missing dict key
  read with `.get` is likewise `none`.
- `datetime.fromisoformat` is library code from outside the repository; it is modelled as an
  arbitrary function `String → Option DT` (returning `none` models the
  raised `ValueError` that `parse_date` catches).
- Python string conversion `str(x)` on the values that flow through the
  home/away comparison is `pyStr` / `strOfOptInt` (`str(None) = "None"`).
- The HTTP transport (`requests.get`) is modelled as a function from the
  endpoint string to a `TransportOutcome`: either a response with a status
  code and a parsed body, or a raised `requests.exceptions.RequestException`
  (timeout, connection error, and the `HTTPError` thrown by
  `raise_for_status`, whose text is abstracted to a message string).
- `flask.flash(message, category)` accumulates `Flash` values returned
  out-of-band next to each result.
-/

namespace FootballApp

/-- Python values as they appear in the home/away identifier comparison:
integers (JSON team ids), strings (ids coming from the web layer), `None`. -/
inductive PyVal where
  | vint : Int → PyVal
  | vstr : String → PyVal
  | vnone : PyVal
deriving DecidableEq

/-- Python `str(x)` for the values of `PyVal`. -/
def pyStr : PyVal → String
  | .vint n => toString n
  | .vstr s => s
  | .vnone => "None"

/-- Python `str(x)` where `x` is an optional integer (`str(None) = "None"`). -/
def strOfOptInt : Option Int → String
  | none => "None"
  | some n => toString n

/-- The `homeTeam` / `awayTeam` sub-object of a raw match: `id` and `name`,
each possibly missing. -/
structure TeamRef where
  id : Option Int
  name : Option String
deriving DecidableEq

/-- The `score.fullTime` sub-object: `home` and `away` goal counts, each an
optional integer (absent or JSON null stays absent, never defaults to 0). -/
structure FullTime where
  home : Option Int
  away : Option Int
deriving DecidableEq

/-- The `score` sub-object of a raw match. -/
structure Score where
  fullTime : Option FullTime
deriving DecidableEq

/-- The `competition` sub-object of a raw match. -/
structure Competition where
  name : Option String
deriving DecidableEq

/-- A raw upstream match record, with every field optional, as read via
`match.get(...)` in `build_match_list_from_matches` and
`get_last_matches_for_team`. -/
structure RawMatch where
  utcDate : Option String
  status : Option String
  homeTeam : Option TeamRef
  awayTeam : Option TeamRef
  score : Option Score
  competition : Option Competition
deriving DecidableEq

/-- Embedding of `parse_date` from `src/app.py`: `None`/empty input gives `None`
(`if not date_str`), otherwise `datetime.fromisoformat` is applied to the
date string with `Z` replaced by `+00:00`; a parse failure is caught and
gives `None` (the abstract parser returns `none` in that case). -/
def parse_date {DT : Type} (fromisoformat : String → Option DT) :
    Option String → Option DT
  | none => none
  | some s => if s = "" then none else fromisoformat (s.replace "Z" "+00:00")

/-- The uniform per-match record appended to `match_list` by
`build_match_list_from_matches`. `result` is `some "W"` / `some "D"` /
`some "L"` or `none` (Python `None`, the UNKNOWN outcome). -/
structure NormalizedMatch (DT : Type) where
  date : Option DT
  opponent : String
  goals_for : Option Int
  goals_against : Option Int
  result : Option String
  is_home : Bool
  status : String
  competition : String
  raw : RawMatch
deriving DecidableEq

/-- The result classification at the end of the loop body of
`build_match_list_from_matches`: compare only when both goal counts are
present, otherwise `None`. -/
def classify_result : Option Int → Option Int → Option String
  | some goals_for, some goals_against =>
    if goals_for > goals_against then some "W"
    else if goals_for = goals_against then some "D"
    else some "L"
  | _, _ => none

/-- The loop body of `build_match_list_from_matches` in `src/app.py`,
building one uniform record from one raw match and the perspective
`team_id`. Mirrors the source line by line: the `.get` defaults, the
string-equality role test `str(team_id) == str(home_id)`, the role-based
goal attribution and the result classification. -/
def normalize_one {DT : Type} (fromisoformat : String → Option DT)
    (team_id : PyVal) (m : RawMatch) : NormalizedMatch DT :=
  let date := parse_date fromisoformat m.utcDate
  let home_team := m.homeTeam.getD ⟨none, none⟩
  let away_team := m.awayTeam.getD ⟨none, none⟩
  let score := ((m.score.getD ⟨none⟩).fullTime).getD ⟨none, none⟩
  let home_id := home_team.id
  let home_name := home_team.name.getD ""
  let away_name := away_team.name.getD ""
  let home_score := score.home
  let away_score := score.away
  let competition := (m.competition.getD ⟨none⟩).name.getD ""
  if pyStr team_id = strOfOptInt home_id then
    { date := date, opponent := away_name, goals_for := home_score,
      goals_against := away_score,
      result := classify_result home_score away_score, is_home := true,
      status := "Finalizado", competition := competition, raw := m }
  else
    { date := date, opponent := home_name, goals_for := away_score,
      goals_against := home_score,
      result := classify_result away_score home_score, is_home := false,
      status := "Finalizado", competition := competition, raw := m }

/-- The accumulation loop of `build_match_list_from_matches`: iterate over
the matches in order, appending one record per match to `match_list`. -/
def build_match_list_loop {DT : Type} (fromisoformat : String → Option DT)
    (team_id : PyVal) :
    List RawMatch → List (NormalizedMatch DT) → List (NormalizedMatch DT)
  | [], match_list => match_list
  | m :: rest, match_list =>
    build_match_list_loop fromisoformat team_id rest
      (match_list ++ [normalize_one fromisoformat team_id m])

/-- Embedding of `build_match_list_from_matches` from `src/app.py`: start from the empty
`match_list` and run the loop over all matches. -/
def build_match_list_from_matches {DT : Type}
    (fromisoformat : String → Option DT) (raw_matches : List RawMatch)
    (team_id : PyVal) : List (NormalizedMatch DT) :=
  build_match_list_loop fromisoformat team_id raw_matches []

/-- A message surfaced to the user via `flask.flash(message, category)`. -/
structure Flash where
  category : String
  message : String
deriving DecidableEq

/-- The outcome of the `requests.get` call inside `football_data_get`:
either a response carrying a status code and a parsed body, or a raised
`requests.exceptions.RequestException` (timeout, connection error, or the
`HTTPError` raised by `raise_for_status`, carrying some message text). -/
inductive TransportOutcome (B : Type) where
  | response : Nat → B → TransportOutcome B
  | requestError : String → TransportOutcome B
deriving DecidableEq

/-- Embedding of `football_data_get` from `src/app.py`, as a function of the transport
outcome for the requested endpoint. Returns the parsed body (or `none`)
together with the flash messages emitted: 429 flashes a warning, 403
flashes an error, 404 is silent, any other 4xx/5xx status makes
`raise_for_status` raise an `HTTPError` that the `except` block catches and
flashes, and a raised `RequestException` is caught and flashed. A 2xx
response returns its parsed JSON body. -/
def football_data_get {B : Type} : TransportOutcome B → Option B × List Flash
  | .requestError e =>
    (none, [⟨"danger", "Error de conexión: " ++ e⟩])
  | .response status _body =>
    if status = 429 then
      (none, [⟨"warning", "Límite de requests excedido. Espera un minuto."⟩])
    else if status = 403 then
      (none, [⟨"danger", "API Key inválida o no configurada."⟩])
    else if status = 404 then
      (none, [])
    else if 400 ≤ status ∧ status < 600 then
      (none, [⟨"danger", "Error de conexión: HTTPError " ++ toString status⟩])
    else
      (some _body, [])

/-- The `if not season: season = "2023"` normalization that each fetcher
applies inside its body (Python falsiness: `None` and the empty string). -/
def seasonDefault : Option String → String
  | none => "2023"
  | some s => if s = "" then "2023" else s

/-- Body of the teams endpoint response: the `teams` key, possibly absent,
holding a list of passthrough team objects. -/
structure TeamsBody (T : Type) where
  teams : Option (List T)
deriving DecidableEq

/-- Body of the matches endpoint response: the `matches` key, possibly
absent. -/
structure MatchesBody where
  match_array : Option (List RawMatch)
deriving DecidableEq

/-- One entry of the `standings` array: its `type` tag and its `table` of
passthrough rows (both indexed directly in the source). -/
structure StandingEntry (R : Type) where
  type : String
  table : List R
deriving DecidableEq

/-- Body of the standings endpoint response: the `standings` key, possibly
absent. -/
structure StandingsBody (R : Type) where
  standings : Option (List (StandingEntry R))
deriving DecidableEq

/-- The parsed body of the team-info endpoint, modelled as a JSON object
(association list); the empty list models the empty dict. -/
def TeamInfo : Type := List (String × PyVal)

/-- Endpoint string built by `get_teams_in_league`. -/
def teams_endpoint (league_code season : String) : String :=
  "competitions/" ++ league_code ++ "/teams?season=" ++ season

/-- Endpoint string built by `get_last_matches_for_team`: note the
over-fetch, `limit * 2` is put in the query string. -/
def matches_endpoint (team_id season : String) (limit : Nat) : String :=
  "teams/" ++ team_id ++ "/matches?season=" ++ season ++ "&limit="
    ++ toString (limit * 2)

/-- Endpoint string built by `get_league_standings`. -/
def standings_endpoint (league_code season : String) : String :=
  "competitions/" ++ league_code ++ "/standings?season=" ++ season

/-- Body of `get_teams_in_league` from `src/app.py` (the code wrapped by
`lru_cache`), over an abstract transport. Defaults the season, fetches,
and returns the value under the teams key unless the data is falsy or the key is absent,
in which case it returns the empty list; flash messages are passed along
out-of-band. -/
def get_teams_in_league {T : Type}
    (transport : String → TransportOutcome (TeamsBody T))
    (league_code : String) (season : Option String) :
    List T × List Flash :=
  let season := seasonDefault season
  let fetched := football_data_get (transport (teams_endpoint league_code season))
  match fetched.1 with
  | none => ([], fetched.2)
  | some body =>
    match body.teams with
    | none => ([], fetched.2)
    | some ts => (ts, fetched.2)

/-- Body of `get_team_by_id` from `src/app.py`: the final
expression returns data when truthy and otherwise the empty dict, so a
failed fetch (and a falsy body) yields the empty object. -/
def get_team_by_id (transport : String → TransportOutcome TeamInfo)
    (team_id : String) : TeamInfo × List Flash :=
  let fetched := football_data_get (transport ("teams/" ++ team_id))
  match fetched.1 with
  | none => (([] : TeamInfo), fetched.2)
  | some d => (d, fetched.2)

/-- The `status == FINISHED` filter of `get_last_matches_for_team`
(read with a defaulting get, so an absent status never equals FINISHED). -/
def finished_filter (ms : List RawMatch) : List RawMatch :=
  ms.filter (fun m => decide (m.status = some "FINISHED"))

/-- Body of `get_last_matches_for_team` from `src/app.py` (the code wrapped
by `lru_cache`): default the season, fetch `limit * 2` matches, keep only
the FINISHED ones, truncate to the original `limit`; a failed fetch or an
absent `matches` key yields the empty list. -/
def get_last_matches_for_team
    (transport : String → TransportOutcome MatchesBody)
    (team_id : String) (season : Option String) (limit : Nat) :
    List RawMatch × List Flash :=
  let season := seasonDefault season
  let fetched := football_data_get (transport (matches_endpoint team_id season limit))
  match fetched.1 with
  | none => ([], fetched.2)
  | some body =>
    match body.match_array with
    | none => ([], fetched.2)
    | some ms => ((finished_filter ms).take limit, fetched.2)

/-- The scan over the standings array in `get_league_standings`: return the
`table` of the first entry whose `type` is TOTAL, or the empty list. -/
def first_total {R : Type} : List (StandingEntry R) → List R
  | [] => []
  | e :: rest => if e.type = "TOTAL" then e.table else first_total rest

/-- Body of `get_league_standings` from `src/app.py` (the code wrapped by
`lru_cache`): default the season, fetch, scan for the first TOTAL group;
a failed fetch or an absent `standings` key yields the empty list. -/
def get_league_standings {R : Type}
    (transport : String → TransportOutcome (StandingsBody R))
    (league_code : String) (season : Option String) :
    List R × List Flash :=
  let season := seasonDefault season
  let fetched := football_data_get (transport (standings_endpoint league_code season))
  match fetched.1 with
  | none => ([], fetched.2)
  | some body =>
    match body.standings with
    | none => ([], fetched.2)
    | some entries => (first_total entries, fetched.2)

/-- Model of the bounded memo table kept by `functools.lru_cache`:
a capacity and an association list of entries ordered most recently used
first (CPython keeps a doubly linked list in recency order; the head of
`entries` is the most recently used link, the last element the least
recently used one). -/
structure LruCache (K V : Type) where
  maxsize : Nat
  entries : List (K × V)
deriving DecidableEq

/-- Lookup in the memo table without touching recency (used to state what
is retrievable from a cache). -/
def lruFind {K V : Type} [DecidableEq K] (c : LruCache K V) (k : K) :
    Option V :=
  (c.entries.find? (fun e => decide (e.1 = k))).map Prod.snd

/-- State of one `lru_cache`-wrapped fetch operation: its memo table plus
instrumentation counting the `requests.get` calls and the
`rate_limited_request` invocations the wrapped body has performed. -/
structure FetchState (K V : Type) where
  cache : LruCache K V
  netCalls : Nat
  rlWaits : Nat
deriving DecidableEq

/-- A fresh fetch operation: empty memo table of the given capacity, no
network traffic yet. -/
def emptyState (K V : Type) (maxsize : Nat) : FetchState K V :=
  ⟨⟨maxsize, []⟩, 0, 0⟩

/-- One call to an `lru_cache`-wrapped fetch operation with argument
tuple `k`. On a hit, CPython returns the stored value and moves its link
to the most-recently-used position; the wrapped body does not run, so no
network call and no rate-limiter wait happens. On a miss, the body runs
(one `rate_limited_request` wait and one `requests.get` call inside
`football_data_get`), the result is stored as most recently used, and when
the table is over capacity the least recently used entry is discarded. -/
def cached_call {K V : Type} [DecidableEq K] (f : K → V)
    (s : FetchState K V) (k : K) : V × FetchState K V :=
  match s.cache.entries.find? (fun e => decide (e.1 = k)) with
  | some e =>
    (e.2,
      { s with
        cache := ⟨s.cache.maxsize,
          (k, e.2) :: s.cache.entries.filter (fun e => decide (¬ e.1 = k))⟩ })
  | none =>
    let v := f k
    (v,
      { cache := ⟨s.cache.maxsize,
          ((k, v) :: s.cache.entries).take s.cache.maxsize⟩,
        netCalls := s.netCalls + 1,
        rlWaits := s.rlWaits + 1 })

/-- A sequence of calls to a cached fetch operation, threading the state. -/
def run_calls {K V : Type} [DecidableEq K] (f : K → V) :
    FetchState K V → List K → FetchState K V
  | s, [] => s
  | s, k :: ks => run_calls f (cached_call f s k).2 ks

/-- The argument tuple of a call to `get_teams_in_league`, as
`functools.lru_cache` sees it: either the one-argument form (season
omitted, so the Python default `season=None` is used inside the body but
the key tuple has length one) or the two-argument form. `lru_cache`
computes its key from this raw tuple; the `if not season` defaulting
happens later, inside the body. -/
inductive TeamsArgs where
  | one : String → TeamsArgs
  | two : String → Option String → TeamsArgs
deriving DecidableEq

/-- The league code an argument tuple carries. -/
def TeamsArgs.league : TeamsArgs → String
  | .one l => l
  | .two l _ => l

/-- The season value the body of `get_teams_in_league` sees for an argument
tuple: the Python default `None` for the one-argument form. -/
def TeamsArgs.seasonArg : TeamsArgs → Option String
  | .one _ => none
  | .two _ s => s

/-- The return value of the wrapped body of `get_teams_in_league` for an
argument tuple (the value `lru_cache` stores; flash messages are a side
effect, not part of the cached value). -/
def teams_value {T : Type}
    (transport : String → TransportOutcome (TeamsBody T))
    (args : TeamsArgs) : List T :=
  (get_teams_in_league transport args.league args.seasonArg).1

/-! ### Helper lemmas about the normalizer -/

/-- The result field of a normalized record is always the classification of
its own goal fields (both branches of the role split compute it that way). -/
theorem normalize_one_result {DT : Type} (fromisoformat : String → Option DT)
    (team_id : PyVal) (m : RawMatch) :
    (normalize_one fromisoformat team_id m).result =
      classify_result (normalize_one fromisoformat team_id m).goals_for
        (normalize_one fromisoformat team_id m).goals_against := by
  simp only [normalize_one]
  split <;> rfl

/-- Classification yields Python `None` exactly when a goal count is
missing. -/
theorem classify_result_none_iff (gf ga : Option Int) :
    classify_result gf ga = none ↔ gf = none ∨ ga = none := by
  cases gf <;> cases ga <;> simp [classify_result]
  split_ifs <;> simp

/-- Classification on two present goal counts. -/
theorem classify_result_some (a b : Int) :
    classify_result (some a) (some b) =
      some (if a > b then "W" else if a = b then "D" else "L") := by
  simp only [classify_result]
  split_ifs <;> rfl

/-- C1: for every raw match, the normalized result is W when
goals_for > goals_against, D when they are equal, L when
goals_for < goals_against, and the result is None (UNKNOWN) if and only if
at least one of goals_for, goals_against is absent — the comparison is
never made on incomplete data. -/
theorem result_unknown_iff_missing {DT : Type}
    (fromisoformat : String → Option DT) (team_id : PyVal) (m : RawMatch) :
    ((normalize_one fromisoformat team_id m).result = none ↔
      (normalize_one fromisoformat team_id m).goals_for = none ∨
      (normalize_one fromisoformat team_id m).goals_against = none)
    ∧ ∀ gf ga : Int,
        (normalize_one fromisoformat team_id m).goals_for = some gf →
        (normalize_one fromisoformat team_id m).goals_against = some ga →
        (normalize_one fromisoformat team_id m).result =
          some (if gf > ga then "W" else if gf = ga then "D" else "L") := by
  refine ⟨?_, ?_⟩
  · rw [normalize_one_result, classify_result_none_iff]
  · intro gf ga hgf hga
    rw [normalize_one_result, hgf, hga, classify_result_some]

/-- Concrete run of the C1 theorem: a finished 2–2 match seen from the away
side is classified D, and a match with a missing away goal count is
classified None. -/
theorem result_unknown_iff_missing_witness :
    (normalize_one (fun _ => (none : Option Unit)) (PyVal.vint 61)
      ⟨none, some "FINISHED", some ⟨some 57, some "Alpha FC"⟩,
        some ⟨some 61, some "Beta FC"⟩, some ⟨some ⟨some 2, some 2⟩⟩,
        some ⟨some "Liga"⟩⟩).result = some "D"
    ∧ (normalize_one (fun _ => (none : Option Unit)) (PyVal.vint 61)
      ⟨none, some "FINISHED", some ⟨some 57, some "Alpha FC"⟩,
        some ⟨some 61, some "Beta FC"⟩, some ⟨some ⟨some 1, none⟩⟩,
        some ⟨some "Liga"⟩⟩).result = none := by
  constructor
  · have h := (result_unknown_iff_missing (fun _ => (none : Option Unit))
      (PyVal.vint 61)
      ⟨none, some "FINISHED", some ⟨some 57, some "Alpha FC"⟩,
        some ⟨some 61, some "Beta FC"⟩, some ⟨some ⟨some 2, some 2⟩⟩,
        some ⟨some "Liga"⟩⟩).2 2 2 (by decide) (by decide)
    simpa using h
  · have h := (result_unknown_iff_missing (fun _ => (none : Option Unit))
      (PyVal.vint 61)
      ⟨none, some "FINISHED", some ⟨some 57, some "Alpha FC"⟩,
        some ⟨some 61, some "Beta FC"⟩, some ⟨some ⟨some 1, none⟩⟩,
        some ⟨some "Liga"⟩⟩).1
    rw [h]
    left
    decide

/-- C2: the home/away role is decided by string equality —
is_home is true iff the string form of the perspective team id equals the
string form of homeTeam.id — and goals are attributed by role: a match with
homeTeam.id 57 and awayTeam.id 61 normalized from perspective 61 has
is_home false, goals_for the away score, goals_against the home score, and
the opponent is the home team name. -/
theorem home_role_string_equality {DT : Type}
    (fromisoformat : String → Option DT) (team_id : PyVal) (m : RawMatch) :
    ((normalize_one fromisoformat team_id m).is_home = true ↔
      pyStr team_id = strOfOptInt ((m.homeTeam.getD ⟨none, none⟩).id))
    ∧ ((m.homeTeam.getD ⟨none, none⟩).id = some 57 →
        (m.awayTeam.getD ⟨none, none⟩).id = some 61 →
        pyStr team_id = "61" →
        (normalize_one fromisoformat team_id m).is_home = false
        ∧ (normalize_one fromisoformat team_id m).goals_for =
            (((m.score.getD ⟨none⟩).fullTime).getD ⟨none, none⟩).away
        ∧ (normalize_one fromisoformat team_id m).goals_against =
            (((m.score.getD ⟨none⟩).fullTime).getD ⟨none, none⟩).home
        ∧ (normalize_one fromisoformat team_id m).opponent =
            (m.homeTeam.getD ⟨none, none⟩).name.getD "") := by
  constructor
  · simp only [normalize_one]
    split
    · simpa
    · simpa
  · intro hh _ha ht
    have hne : ¬ pyStr team_id = strOfOptInt ((m.homeTeam.getD ⟨none, none⟩).id) := by
      rw [ht, hh]
      decide
    simp only [normalize_one, if_neg hne]
    refine ⟨?_, ?_, ?_, ?_⟩ <;> trivial

/-- Concrete run of the C2 theorem on the spec example: home id 57, away
id 61, score 3–1, perspective 61. -/
theorem home_role_string_equality_witness :
    (normalize_one (fun _ => (none : Option Unit)) (PyVal.vint 61)
      ⟨none, some "FINISHED", some ⟨some 57, some "Alpha FC"⟩,
        some ⟨some 61, some "Beta FC"⟩, some ⟨some ⟨some 3, some 1⟩⟩,
        some ⟨some "Liga"⟩⟩).is_home = false
    ∧ (normalize_one (fun _ => (none : Option Unit)) (PyVal.vint 61)
      ⟨none, some "FINISHED", some ⟨some 57, some "Alpha FC"⟩,
        some ⟨some 61, some "Beta FC"⟩, some ⟨some ⟨some 3, some 1⟩⟩,
        some ⟨some "Liga"⟩⟩).goals_for = some 1
    ∧ (normalize_one (fun _ => (none : Option Unit)) (PyVal.vint 61)
      ⟨none, some "FINISHED", some ⟨some 57, some "Alpha FC"⟩,
        some ⟨some 61, some "Beta FC"⟩, some ⟨some ⟨some 3, some 1⟩⟩,
        some ⟨some "Liga"⟩⟩).goals_against = some 3
    ∧ (normalize_one (fun _ => (none : Option Unit)) (PyVal.vint 61)
      ⟨none, some "FINISHED", some ⟨some 57, some "Alpha FC"⟩,
        some ⟨some 61, some "Beta FC"⟩, some ⟨some ⟨some 3, some 1⟩⟩,
        some ⟨some "Liga"⟩⟩).opponent = "Alpha FC" := by
  have h := (home_role_string_equality (fun _ => (none : Option Unit))
    (PyVal.vint 61)
    ⟨none, some "FINISHED", some ⟨some 57, some "Alpha FC"⟩,
      some ⟨some 61, some "Beta FC"⟩, some ⟨some ⟨some 3, some 1⟩⟩,
      some ⟨some "Liga"⟩⟩).2 (by decide) (by decide) (by decide)
  exact ⟨h.1, h.2.1, h.2.2.1, h.2.2.2⟩

/-- C10: whenever the string form of the perspective id differs from the
string form of homeTeam.id — including when the perspective team is on
neither side of the match — the record is classified as an away match:
is_home false, goals_for the away score, goals_against the home score,
opponent the home team name. No participation check is performed. -/
theorem nonhome_classified_away {DT : Type}
    (fromisoformat : String → Option DT) (team_id : PyVal) (m : RawMatch)
    (h : pyStr team_id ≠ strOfOptInt ((m.homeTeam.getD ⟨none, none⟩).id)) :
    (normalize_one fromisoformat team_id m).is_home = false
    ∧ (normalize_one fromisoformat team_id m).goals_for =
        (((m.score.getD ⟨none⟩).fullTime).getD ⟨none, none⟩).away
    ∧ (normalize_one fromisoformat team_id m).goals_against =
        (((m.score.getD ⟨none⟩).fullTime).getD ⟨none, none⟩).home
    ∧ (normalize_one fromisoformat team_id m).opponent =
        (m.homeTeam.getD ⟨none, none⟩).name.getD "" := by
  simp only [normalize_one, if_neg h]
  refine ⟨?_, ?_, ?_, ?_⟩ <;> trivial

/-- Concrete run of the C10 theorem with a perspective team (id 99) that
plays on neither side of the match (home 57, away 61): the record is still
built, as an away match against the home team. -/
theorem nonhome_classified_away_witness :
    (normalize_one (fun _ => (none : Option Unit)) (PyVal.vint 99)
      ⟨none, some "FINISHED", some ⟨some 57, some "Alpha FC"⟩,
        some ⟨some 61, some "Beta FC"⟩, some ⟨some ⟨some 2, some 0⟩⟩,
        some ⟨some "Liga"⟩⟩).is_home = false
    ∧ (normalize_one (fun _ => (none : Option Unit)) (PyVal.vint 99)
      ⟨none, some "FINISHED", some ⟨some 57, some "Alpha FC"⟩,
        some ⟨some 61, some "Beta FC"⟩, some ⟨some ⟨some 2, some 0⟩⟩,
        some ⟨some "Liga"⟩⟩).goals_for = some 0
    ∧ (normalize_one (fun _ => (none : Option Unit)) (PyVal.vint 99)
      ⟨none, some "FINISHED", some ⟨some 57, some "Alpha FC"⟩,
        some ⟨some 61, some "Beta FC"⟩, some ⟨some ⟨some 2, some 0⟩⟩,
        some ⟨some "Liga"⟩⟩).goals_against = some 2
    ∧ (normalize_one (fun _ => (none : Option Unit)) (PyVal.vint 99)
      ⟨none, some "FINISHED", some ⟨some 57, some "Alpha FC"⟩,
        some ⟨some 61, some "Beta FC"⟩, some ⟨some ⟨some 2, some 0⟩⟩,
        some ⟨some "Liga"⟩⟩).opponent = "Alpha FC" := by
  have h := nonhome_classified_away (fun _ => (none : Option Unit))
    (PyVal.vint 99)
    ⟨none, some "FINISHED", some ⟨some 57, some "Alpha FC"⟩,
      some ⟨some 61, some "Beta FC"⟩, some ⟨some ⟨some 2, some 0⟩⟩,
      some ⟨some "Liga"⟩⟩ (by decide)
  exact ⟨h.1, h.2.1, h.2.2.1, h.2.2.2⟩

/-- The accumulation loop appends exactly the per-match records, in input
order, to the accumulator. -/
theorem build_match_list_loop_eq {DT : Type}
    (fromisoformat : String → Option DT) (team_id : PyVal)
    (ms : List RawMatch) :
    ∀ acc : List (NormalizedMatch DT),
      build_match_list_loop fromisoformat team_id ms acc =
        acc ++ ms.map (normalize_one fromisoformat team_id) := by
  induction ms with
  | nil => intro acc; simp [build_match_list_loop]
  | cons m rest ih =>
    intro acc
    simp [build_match_list_loop, ih]

/-- C9: normalization is total, length-preserving and order-preserving —
the output is exactly the per-record image of the input, one record per raw
match in the same order, with no record dropped and no fault raised (the
embedding is a total function); a malformed match only degrades its own
record, and splitting the input splits the output at the same point. -/
theorem normalize_total_order_preserving {DT : Type}
    (fromisoformat : String → Option DT) (team_id : PyVal)
    (raw_matches : List RawMatch) :
    build_match_list_from_matches fromisoformat raw_matches team_id =
      raw_matches.map (normalize_one fromisoformat team_id)
    ∧ (build_match_list_from_matches fromisoformat raw_matches team_id).length =
        raw_matches.length
    ∧ (∀ i : Nat,
        (build_match_list_from_matches fromisoformat raw_matches team_id)[i]? =
          (raw_matches[i]?).map (normalize_one fromisoformat team_id))
    ∧ ∀ pre post : List RawMatch, raw_matches = pre ++ post →
        build_match_list_from_matches fromisoformat raw_matches team_id =
          build_match_list_from_matches fromisoformat pre team_id ++
            build_match_list_from_matches fromisoformat post team_id := by
  have hmap : build_match_list_from_matches fromisoformat raw_matches team_id =
      raw_matches.map (normalize_one fromisoformat team_id) := by
    unfold build_match_list_from_matches
    simpa using build_match_list_loop_eq fromisoformat team_id raw_matches []
  refine ⟨hmap, ?_, ?_, ?_⟩
  · rw [hmap, List.length_map]
  · intro i
    rw [hmap, List.getElem?_map]
  · intro pre post hsplit
    have h1 : build_match_list_from_matches fromisoformat pre team_id =
        pre.map (normalize_one fromisoformat team_id) := by
      unfold build_match_list_from_matches
      simpa using build_match_list_loop_eq fromisoformat team_id pre []
    have h2 : build_match_list_from_matches fromisoformat post team_id =
        post.map (normalize_one fromisoformat team_id) := by
      unfold build_match_list_from_matches
      simpa using build_match_list_loop_eq fromisoformat team_id post []
    rw [hmap, h1, h2, hsplit, List.map_append]

/-- Concrete run of the C9 theorem: a malformed match (no date, no teams,
no score) surrounded by two well-formed ones is normalized in place — three
records out, in order, with only the middle record degraded to an unknown
result. -/
theorem normalize_total_order_preserving_witness :
    (build_match_list_from_matches (fun _ => (none : Option Unit))
      [⟨none, some "FINISHED", some ⟨some 61, some "Beta FC"⟩,
          some ⟨some 57, some "Alpha FC"⟩, some ⟨some ⟨some 1, some 0⟩⟩,
          some ⟨some "Liga"⟩⟩,
        ⟨none, none, none, none, none, none⟩,
        ⟨none, some "FINISHED", some ⟨some 57, some "Alpha FC"⟩,
          some ⟨some 61, some "Beta FC"⟩, some ⟨some ⟨some 0, some 4⟩⟩,
          some ⟨some "Liga"⟩⟩] (PyVal.vint 61)).length = 3
    ∧ build_match_list_from_matches (fun _ => (none : Option Unit))
      [⟨none, some "FINISHED", some ⟨some 61, some "Beta FC"⟩,
          some ⟨some 57, some "Alpha FC"⟩, some ⟨some ⟨some 1, some 0⟩⟩,
          some ⟨some "Liga"⟩⟩,
        ⟨none, none, none, none, none, none⟩,
        ⟨none, some "FINISHED", some ⟨some 57, some "Alpha FC"⟩,
          some ⟨some 61, some "Beta FC"⟩, some ⟨some ⟨some 0, some 4⟩⟩,
          some ⟨some "Liga"⟩⟩] (PyVal.vint 61) =
      build_match_list_from_matches (fun _ => (none : Option Unit))
        [⟨none, some "FINISHED", some ⟨some 61, some "Beta FC"⟩,
          some ⟨some 57, some "Alpha FC"⟩, some ⟨some ⟨some 1, some 0⟩⟩,
          some ⟨some "Liga"⟩⟩] (PyVal.vint 61) ++
      build_match_list_from_matches (fun _ => (none : Option Unit))
        [⟨none, none, none, none, none, none⟩,
          ⟨none, some "FINISHED", some ⟨some 57, some "Alpha FC"⟩,
            some ⟨some 61, some "Beta FC"⟩, some ⟨some ⟨some 0, some 4⟩⟩,
            some ⟨some "Liga"⟩⟩] (PyVal.vint 61) := by
  have h := normalize_total_order_preserving (fun _ => (none : Option Unit))
    (PyVal.vint 61)
    [⟨none, some "FINISHED", some ⟨some 61, some "Beta FC"⟩,
        some ⟨some 57, some "Alpha FC"⟩, some ⟨some ⟨some 1, some 0⟩⟩,
        some ⟨some "Liga"⟩⟩,
      ⟨none, none, none, none, none, none⟩,
      ⟨none, some "FINISHED", some ⟨some 57, some "Alpha FC"⟩,
        some ⟨some 61, some "Beta FC"⟩, some ⟨some ⟨some 0, some 4⟩⟩,
        some ⟨some "Liga"⟩⟩]
  exact ⟨h.2.1, h.2.2.2
    [⟨none, some "FINISHED", some ⟨some 61, some "Beta FC"⟩,
        some ⟨some 57, some "Alpha FC"⟩, some ⟨some ⟨some 1, some 0⟩⟩,
        some ⟨some "Liga"⟩⟩]
    [⟨none, none, none, none, none, none⟩,
      ⟨none, some "FINISHED", some ⟨some 57, some "Alpha FC"⟩,
        some ⟨some 61, some "Beta FC"⟩, some ⟨some ⟨some 0, some 4⟩⟩,
        some ⟨some "Liga"⟩⟩] rfl⟩

/-- The list component of `get_last_matches_for_team`, written as a direct
case split on the fetched data. -/
theorem get_last_matches_eq (transport : String → TransportOutcome MatchesBody)
    (team_id : String) (season : Option String) (limit : Nat) :
    (get_last_matches_for_team transport team_id season limit).1 =
      (match (football_data_get
          (transport (matches_endpoint team_id (seasonDefault season) limit))).1 with
        | none => []
        | some body =>
          match body.match_array with
          | none => []
          | some ms => (finished_filter ms).take limit) := by
  simp only [get_last_matches_for_team]
  rcases (football_data_get
      (transport (matches_endpoint team_id (seasonDefault season) limit))).1
    with _ | ⟨_ | ms⟩ <;> rfl

/-- The empty-result cases of `get_last_matches_for_team`. -/
theorem get_last_matches_empty_cases
    (transport : String → TransportOutcome MatchesBody)
    (team_id : String) (season : Option String) (limit : Nat) :
    ((football_data_get
        (transport (matches_endpoint team_id (seasonDefault season) limit))).1 =
          none →
      (get_last_matches_for_team transport team_id season limit).1 = [])
    ∧ ∀ ma : Option (List RawMatch),
        (football_data_get
          (transport (matches_endpoint team_id (seasonDefault season) limit))).1 =
            some ⟨ma⟩ →
        (get_last_matches_for_team transport team_id season limit).1 =
          (match ma with
            | none => []
            | some ms => (finished_filter ms).take limit) := by
  have hres := get_last_matches_eq transport team_id season limit
  constructor
  · intro h
    rw [hres, h]
  · intro ma h
    rw [hres, h]

/-- C3: `get_last_matches_for_team` asks the upstream endpoint for twice
the requested limit, keeps only matches whose status is FINISHED, and
truncates to the original limit — so the result has at most `limit`
entries, all FINISHED; when the response holds the `matches` array, the
result is the first min(limit, n) of its n FINISHED entries; a failed
fetch or an absent `matches` key yields the empty list. -/
theorem last_matches_filter_truncate
    (transport : String → TransportOutcome MatchesBody)
    (team_id : String) (season : Option String) (limit : Nat) :
    matches_endpoint team_id (seasonDefault season) limit =
      "teams/" ++ team_id ++ "/matches?season=" ++ seasonDefault season
        ++ "&limit=" ++ toString (limit * 2)
    ∧ (get_last_matches_for_team transport team_id season limit).1.length ≤ limit
    ∧ (∀ m ∈ (get_last_matches_for_team transport team_id season limit).1,
        m.status = some "FINISHED")
    ∧ (∀ (body : MatchesBody) (ms : List RawMatch),
        (football_data_get
          (transport (matches_endpoint team_id (seasonDefault season) limit))).1 =
            some body →
        body.match_array = some ms →
        (get_last_matches_for_team transport team_id season limit).1 =
          (finished_filter ms).take limit
        ∧ (get_last_matches_for_team transport team_id season limit).1.length =
            min limit (finished_filter ms).length)
    ∧ (∀ body : MatchesBody,
        (football_data_get
          (transport (matches_endpoint team_id (seasonDefault season) limit))).1 =
            some body →
        body.match_array = none →
        (get_last_matches_for_team transport team_id season limit).1 = [])
    ∧ ((football_data_get
          (transport (matches_endpoint team_id (seasonDefault season) limit))).1 =
            none →
        (get_last_matches_for_team transport team_id season limit).1 = []) := by
  have hcases := get_last_matches_empty_cases transport team_id season limit
  refine ⟨rfl, ?_, ?_, ?_, ?_, hcases.1⟩
  · rcases hd : (football_data_get
        (transport (matches_endpoint team_id (seasonDefault season) limit))).1
      with _ | ⟨_ | ms⟩
    · rw [hcases.1 hd]
      simp
    · rw [hcases.2 none hd]
      simp
    · rw [hcases.2 (some ms) hd]
      simp
  · intro m hm
    rcases hd : (football_data_get
        (transport (matches_endpoint team_id (seasonDefault season) limit))).1
      with _ | ⟨_ | ms⟩
    · rw [hcases.1 hd] at hm
      simp at hm
    · rw [hcases.2 none hd] at hm
      simp at hm
    · rw [hcases.2 (some ms) hd] at hm
      have hm2 : m ∈ finished_filter ms :=
        List.take_subset limit (finished_filter ms) hm
      exact of_decide_eq_true (List.mem_filter.mp hm2).2
  · intro body ms hbody hms
    obtain ⟨ma⟩ := body
    cases hms
    rw [hcases.2 (some ms) hbody]
    exact ⟨rfl, by simp⟩
  · intro body hbody hnone
    obtain ⟨ma⟩ := body
    cases hnone
    rw [hcases.2 none hbody]

/-- Ten sample raw matches, six of which are FINISHED, for the concrete
run of the C3 theorem. -/
def demo_matches10 : List RawMatch :=
  [⟨none, some "FINISHED", some ⟨some 1, some "A"⟩, some ⟨some 2, some "B"⟩,
      some ⟨some ⟨some 1, some 0⟩⟩, none⟩,
    ⟨none, some "TIMED", none, none, none, none⟩,
    ⟨none, some "FINISHED", some ⟨some 3, some "C"⟩, some ⟨some 4, some "D"⟩,
      some ⟨some ⟨some 2, some 2⟩⟩, none⟩,
    ⟨none, some "SCHEDULED", none, none, none, none⟩,
    ⟨none, some "FINISHED", none, none, none, none⟩,
    ⟨none, some "FINISHED", none, none, none, none⟩,
    ⟨none, some "POSTPONED", none, none, none, none⟩,
    ⟨none, some "FINISHED", none, none, none, none⟩,
    ⟨none, none, none, none, none, none⟩,
    ⟨none, some "FINISHED", none, none, none, none⟩]

/-- Concrete run of the C3 theorem on the spec example: an upstream
response with ten matches, six of them FINISHED, and limit 5 returns
exactly min(5, 6) = 5 entries, the first five FINISHED ones. -/
theorem last_matches_filter_truncate_witness :
    (get_last_matches_for_team
      (fun _ => TransportOutcome.response 200 ⟨some demo_matches10⟩)
      "57" none 5).1.length = 5
    ∧ (get_last_matches_for_team
      (fun _ => TransportOutcome.response 200 ⟨some demo_matches10⟩)
      "57" none 5).1 = (finished_filter demo_matches10).take 5 := by
  have h := (last_matches_filter_truncate
    (fun _ => TransportOutcome.response 200 ⟨some demo_matches10⟩)
    "57" none 5).2.2.2.1 ⟨some demo_matches10⟩ demo_matches10 rfl rfl
  refine ⟨?_, h.1⟩
  rw [h.2]
  decide

/-- The scan returns the table of the first TOTAL entry, skipping every
earlier entry of another type. -/
theorem first_total_of_split {R : Type} (pre post : List (StandingEntry R))
    (e : StandingEntry R) (hpre : ∀ x ∈ pre, x.type ≠ "TOTAL")
    (he : e.type = "TOTAL") :
    first_total (pre ++ e :: post) = e.table := by
  induction pre with
  | nil => simp [first_total, he]
  | cons x rest ih =>
    have hx := hpre x (by simp)
    rw [List.cons_append]
    simp only [first_total, if_neg hx]
    exact ih fun y hy => hpre y (by simp [hy])

/-- The scan returns the empty list when no entry is of type TOTAL. -/
theorem first_total_of_no_total {R : Type} (entries : List (StandingEntry R))
    (h : ∀ x ∈ entries, x.type ≠ "TOTAL") : first_total entries = [] := by
  induction entries with
  | nil => rfl
  | cons x rest ih =>
    have hx := h x (by simp)
    simp only [first_total, if_neg hx]
    exact ih fun y hy => h y (by simp [hy])

/-- The list component of `get_league_standings`, written as a direct case
split on the fetched data. -/
theorem get_league_standings_eq {R : Type}
    (transport : String → TransportOutcome (StandingsBody R))
    (league_code : String) (season : Option String) :
    (get_league_standings transport league_code season).1 =
      (match (football_data_get
          (transport (standings_endpoint league_code (seasonDefault season)))).1 with
        | none => []
        | some body =>
          match body.standings with
          | none => []
          | some entries => first_total entries) := by
  simp only [get_league_standings]
  rcases (football_data_get
      (transport (standings_endpoint league_code (seasonDefault season)))).1
    with _ | ⟨_ | entries⟩ <;> rfl

/-- C8: `get_league_standings` returns the `table` of the first entry of
the `standings` array whose type is TOTAL, skipping entries of other types
such as HOME_AWAY; when no TOTAL entry exists, or the `standings` key is
absent, or the fetch failed, it returns the empty list. -/
theorem standings_first_total {R : Type}
    (transport : String → TransportOutcome (StandingsBody R))
    (league_code : String) (season : Option String) :
    (∀ (pre post : List (StandingEntry R)) (e : StandingEntry R),
        (football_data_get
          (transport (standings_endpoint league_code (seasonDefault season)))).1 =
            some ⟨some (pre ++ e :: post)⟩ →
        (∀ x ∈ pre, x.type ≠ "TOTAL") → e.type = "TOTAL" →
        (get_league_standings transport league_code season).1 = e.table)
    ∧ (∀ entries : List (StandingEntry R),
        (football_data_get
          (transport (standings_endpoint league_code (seasonDefault season)))).1 =
            some ⟨some entries⟩ →
        (∀ x ∈ entries, x.type ≠ "TOTAL") →
        (get_league_standings transport league_code season).1 = [])
    ∧ (∀ body : StandingsBody R,
        (football_data_get
          (transport (standings_endpoint league_code (seasonDefault season)))).1 =
            some body →
        body.standings = none →
        (get_league_standings transport league_code season).1 = [])
    ∧ ((football_data_get
          (transport (standings_endpoint league_code (seasonDefault season)))).1 =
            none →
        (get_league_standings transport league_code season).1 = []) := by
  have hres := get_league_standings_eq transport league_code season
  refine ⟨?_, ?_, ?_, ?_⟩
  · intro pre post e hb hpre he
    rw [hres, hb]
    exact first_total_of_split pre post e hpre he
  · intro entries hb hno
    rw [hres, hb]
    exact first_total_of_no_total entries hno
  · intro body hb hnone
    obtain ⟨st⟩ := body
    cases hnone
    rw [hres, hb]
  · intro hb
    rw [hres, hb]

/-- Concrete run of the C8 theorem on the spec example: a standings
response with a HOME_AWAY group followed by a TOTAL group returns only the
TOTAL group table. -/
theorem standings_first_total_witness :
    (get_league_standings
      (fun _ => TransportOutcome.response 200
        (⟨some [⟨"HOME_AWAY", [10]⟩, ⟨"TOTAL", [20, 30]⟩]⟩ :
          StandingsBody Nat))
      "PL" none).1 = [20, 30] := by
  have h := (standings_first_total
    (fun _ => TransportOutcome.response 200
      (⟨some [⟨"HOME_AWAY", [10]⟩, ⟨"TOTAL", [20, 30]⟩]⟩ :
        StandingsBody Nat))
    "PL" none).1 [⟨"HOME_AWAY", [10]⟩] [] ⟨"TOTAL", [20, 30]⟩ rfl
    (by decide) rfl
  exact h

/-- A transport-classified failure: a raised request exception, or any
4xx/5xx status (429, 403 and 404 among them; `raise_for_status` raises for
every other status in that range). -/
def transport_failed {B : Type} : TransportOutcome B → Bool
  | .requestError _ => true
  | .response status _ => decide (400 ≤ status ∧ status < 600)

/-- The silent not-found case: an HTTP 404 response. -/
def is_silent_not_found {B : Type} : TransportOutcome B → Bool
  | .response status _ => decide (status = 404)
  | .requestError _ => false

/-- Every transport-classified failure makes `football_data_get` return
`None` instead of raising. -/
theorem football_data_get_failed_none {B : Type} (out : TransportOutcome B)
    (h : transport_failed out = true) : (football_data_get out).1 = none := by
  cases out with
  | requestError e => rfl
  | response status body =>
    have h4 : 400 ≤ status ∧ status < 600 := of_decide_eq_true h
    simp only [football_data_get]
    split_ifs <;> simp_all

/-- Every transport-classified failure other than a 404 flashes a
user-visible advisory. -/
theorem football_data_get_failed_flash {B : Type} (out : TransportOutcome B)
    (h : transport_failed out = true)
    (h404 : is_silent_not_found out = false) :
    (football_data_get out).2 ≠ [] := by
  cases out with
  | requestError e => simp [football_data_get]
  | response status body =>
    have h4 : 400 ≤ status ∧ status < 600 := of_decide_eq_true h
    have hs : ¬ status = 404 := of_decide_eq_false h404
    simp only [football_data_get]
    split_ifs <;> simp_all

/-- An HTTP 404 returns `None` silently: no flash message at all. -/
theorem football_data_get_404 {B : Type} (out : TransportOutcome B)
    (h : is_silent_not_found out = true) :
    (football_data_get out).1 = none ∧ (football_data_get out).2 = [] := by
  cases out with
  | requestError e => exact absurd h (by simp [is_silent_not_found])
  | response status body =>
    have hs : status = 404 := of_decide_eq_true h
    subst hs
    exact ⟨rfl, rfl⟩

/-- The list component of `get_teams_in_league`, written as a direct case
split on the fetched data. -/
theorem get_teams_in_league_eq {T : Type}
    (transport : String → TransportOutcome (TeamsBody T))
    (league_code : String) (season : Option String) :
    (get_teams_in_league transport league_code season).1 =
      (match (football_data_get
          (transport (teams_endpoint league_code (seasonDefault season)))).1 with
        | none => []
        | some body =>
          match body.teams with
          | none => []
          | some ts => ts) := by
  simp only [get_teams_in_league]
  rcases (football_data_get
      (transport (teams_endpoint league_code (seasonDefault season)))).1
    with _ | ⟨_ | ts⟩ <;> rfl

/-- The object component of `get_team_by_id`, written as a direct case
split on the fetched data. -/
theorem get_team_by_id_eq
    (transport : String → TransportOutcome TeamInfo) (team_id : String) :
    (get_team_by_id transport team_id).1 =
      (match (football_data_get (transport ("teams/" ++ team_id))).1 with
        | none => ([] : TeamInfo)
        | some d => d) := by
  simp only [get_team_by_id]
  rcases (football_data_get (transport ("teams/" ++ team_id))).1
    with _ | d <;> rfl

/-- C7: every transport-classified failure (HTTP 429, 403, 404 or any
other transport failure such as a timeout or connection error) is turned
into an empty or default result at the fetch-operation boundary — the
embedding never propagates a fault, each fetcher returns an empty
collection (empty object for team info) — and, except for the silent 404
case, a user-visible flash advisory accompanies the failure. -/
theorem transport_failure_empty_results {T R : Type}
    (league_code team_id : String) (season : Option String) (limit : Nat)
    (outT : TransportOutcome (TeamsBody T))
    (outM : TransportOutcome MatchesBody)
    (outS : TransportOutcome (StandingsBody R))
    (outI : TransportOutcome TeamInfo)
    (hT : transport_failed outT = true)
    (hM : transport_failed outM = true)
    (hS : transport_failed outS = true)
    (hI : transport_failed outI = true) :
    (get_teams_in_league (fun _ => outT) league_code season).1 = []
    ∧ (get_last_matches_for_team (fun _ => outM) team_id season limit).1 = []
    ∧ (get_league_standings (fun _ => outS) league_code season).1 = []
    ∧ (get_team_by_id (fun _ => outI) team_id).1 = []
    ∧ (∀ (B : Type) (out : TransportOutcome B),
        transport_failed out = true → is_silent_not_found out = false →
        (football_data_get out).2 ≠ [])
    ∧ (∀ (B : Type) (out : TransportOutcome B),
        is_silent_not_found out = true → (football_data_get out).2 = []) := by
  refine ⟨?_, ?_, ?_, ?_, ?_, ?_⟩
  · rw [get_teams_in_league_eq, football_data_get_failed_none outT hT]
  · rw [get_last_matches_eq, football_data_get_failed_none outM hM]
  · rw [get_league_standings_eq, football_data_get_failed_none outS hS]
  · rw [get_team_by_id_eq, football_data_get_failed_none outI hI]
  · intro B out h h404
    exact football_data_get_failed_flash out h h404
  · intro B out h
    exact (football_data_get_404 out h).2

/-- Concrete run of the C7 theorem: a 429 on teams, a raised timeout on
matches, a 500 on standings and a 403 on team info all yield empty
results; the 429 flashes an advisory while a 404 flashes nothing. -/
theorem transport_failure_empty_results_witness :
    (get_teams_in_league
      (fun _ => TransportOutcome.response 429 (⟨some [1, 2]⟩ : TeamsBody Nat))
      "PL" none).1 = []
    ∧ (get_last_matches_for_team
      (fun _ => (TransportOutcome.requestError "timeout" :
        TransportOutcome MatchesBody)) "57" none 15).1 = []
    ∧ (get_league_standings
      (fun _ => TransportOutcome.response 500
        (⟨some []⟩ : StandingsBody Nat)) "PL" none).1 = []
    ∧ (get_team_by_id
      (fun _ => TransportOutcome.response 403 ([] : TeamInfo)) "57").1 = []
    ∧ (football_data_get
        (TransportOutcome.response 429 (⟨some [1, 2]⟩ : TeamsBody Nat))).2 ≠ []
    ∧ (football_data_get
        (TransportOutcome.response 404 (⟨some [1, 2]⟩ : TeamsBody Nat))).2 = [] := by
  have h := transport_failure_empty_results "PL" "57" none 15
    (TransportOutcome.response 429 (⟨some [1, 2]⟩ : TeamsBody Nat))
    (TransportOutcome.requestError "timeout")
    (TransportOutcome.response 500 (⟨some []⟩ : StandingsBody Nat))
    (TransportOutcome.response 403 ([] : TeamInfo))
    (by decide) rfl (by decide) (by decide)
  exact ⟨h.1, h.2.1, h.2.2.1, h.2.2.2.1,
    h.2.2.2.2.1 (TeamsBody Nat)
      (TransportOutcome.response 429 ⟨some [1, 2]⟩) (by decide) (by decide),
    h.2.2.2.2.2 (TeamsBody Nat)
      (TransportOutcome.response 404 ⟨some [1, 2]⟩) (by decide)⟩

/-- C6: for a cached fetch operation, two consecutive calls with the same
argument tuple perform at most one network call in total: whatever the
first call did, the second call is a cache hit that returns the first
value of the first call, touches neither the network nor the rate limiter, and the
first call itself adds at most one network call. The only requirement is a
nonzero capacity (the source caches use 128 and 256). -/
theorem cached_call_single_network {K V : Type} [DecidableEq K] (f : K → V)
    (s : FetchState K V) (k : K) (hcap : 1 ≤ s.cache.maxsize) :
    (cached_call f (cached_call f s k).2 k).2.netCalls =
      (cached_call f s k).2.netCalls
    ∧ (cached_call f (cached_call f s k).2 k).2.rlWaits =
      (cached_call f s k).2.rlWaits
    ∧ (cached_call f (cached_call f s k).2 k).1 = (cached_call f s k).1
    ∧ (cached_call f s k).2.netCalls ≤ s.netCalls + 1 := by
  have hkk : decide (k = k) = true := by simp
  rcases hfind : s.cache.entries.find? (fun e => decide (e.1 = k))
    with _ | e
  · -- first call is a miss: the fresh entry sits at the front, because the
    -- capacity is at least one, so the second call hits it
    obtain ⟨m, hm⟩ := Nat.exists_eq_add_of_le hcap
    have hstep :
        cached_call f s k =
          (f k,
            ⟨⟨s.cache.maxsize, ((k, f k) :: s.cache.entries).take s.cache.maxsize⟩,
              s.netCalls + 1, s.rlWaits + 1⟩) := by
      simp [cached_call, hfind]
    have htake : ((k, f k) :: s.cache.entries).take s.cache.maxsize =
        (k, f k) :: s.cache.entries.take m := by
      rw [hm, Nat.add_comm, List.take_succ_cons]
    have hfind2 : ((k, f k) :: s.cache.entries.take m).find?
        (fun e => decide (e.1 = k)) = some (k, f k) :=
      List.find?_cons_of_pos _ hkk
    rw [hstep]
    simp only [cached_call, htake, hfind2]
    refine ⟨?_, ?_, ?_, ?_⟩ <;> trivial
  · -- first call is a hit: the entry is moved to the front and hit again
    have hstep :
        cached_call f s k =
          (e.2,
            ⟨⟨s.cache.maxsize,
                (k, e.2) :: s.cache.entries.filter (fun e => decide (¬ e.1 = k))⟩,
              s.netCalls, s.rlWaits⟩) := by
      simp [cached_call, hfind]
    have hfind2 :
        ((k, e.2) :: s.cache.entries.filter (fun e => decide (¬ e.1 = k))).find?
          (fun e => decide (e.1 = k)) = some (k, e.2) :=
      List.find?_cons_of_pos _ hkk
    rw [hstep]
    simp only [cached_call, hfind2]
    refine ⟨?_, ?_, ?_, ?_⟩ <;> first | trivial | exact Nat.le_succ _

/-- Concrete run of the C6 theorem: calling a cached operation twice with
key 7 on a fresh capacity-128 table makes exactly one network call, and
the second call returns the same value with no extra rate-limiter wait. -/
theorem cached_call_single_network_witness :
    (cached_call (fun k : Nat => k + 100)
        (cached_call (fun k : Nat => k + 100)
          (emptyState Nat Nat 128) 7).2 7).2.netCalls =
      (cached_call (fun k : Nat => k + 100) (emptyState Nat Nat 128) 7).2.netCalls
    ∧ (cached_call (fun k : Nat => k + 100)
        (cached_call (fun k : Nat => k + 100)
          (emptyState Nat Nat 128) 7).2 7).2.rlWaits =
      (cached_call (fun k : Nat => k + 100) (emptyState Nat Nat 128) 7).2.rlWaits
    ∧ (cached_call (fun k : Nat => k + 100)
        (cached_call (fun k : Nat => k + 100)
          (emptyState Nat Nat 128) 7).2 7).1 =
      (cached_call (fun k : Nat => k + 100) (emptyState Nat Nat 128) 7).1
    ∧ (cached_call (fun k : Nat => k + 100)
        (emptyState Nat Nat 128) 7).2.netCalls ≤ (emptyState Nat Nat 128).netCalls + 1 :=
  cached_call_single_network (fun k : Nat => k + 100)
    (emptyState Nat Nat 128) 7 (by decide)

/-- A lookup in the memo table only returns a value stored under exactly
the looked-up key. -/
theorem lruFind_mem {K V : Type} [DecidableEq K] (c : LruCache K V) (k : K)
    (v : V) (h : lruFind c k = some v) : (k, v) ∈ c.entries := by
  unfold lruFind at h
  rcases hf : c.entries.find? (fun e => decide (e.1 = k)) with _ | e
  · rw [hf] at h
    simp at h
  · rw [hf] at h
    simp at h
    have hmem := List.mem_of_find?_eq_some hf
    have hkeyb := @List.find?_some _ (fun x => decide (x.1 = k)) e c.entries hf
    have hkey : e.1 = k := of_decide_eq_true hkeyb
    obtain ⟨e1, e2⟩ := e
    cases hkey
    cases h
    exact hmem

/-- C4 counterexample: the `if not season` defaulting runs inside the body
of `get_teams_in_league`, after `lru_cache` has computed the key from the
raw argument tuple — so a call omitting the season and a call passing
season "2023" explicitly do not hit the same cache entry: starting from a
fresh table, the second call is its own miss (two network calls, two
distinct entries), refuting the claim that the two calls share one entry. -/
theorem teams_cache_default_season_cx :
    (cached_call
      (teams_value
        (fun _ => TransportOutcome.response 200 (⟨some [7, 9]⟩ : TeamsBody Nat)))
      (cached_call
        (teams_value
          (fun _ => TransportOutcome.response 200 (⟨some [7, 9]⟩ : TeamsBody Nat)))
        (emptyState TeamsArgs (List Nat) 128) (TeamsArgs.one "PL")).2
      (TeamsArgs.two "PL" (some "2023"))).2.netCalls = 2
    ∧ (cached_call
      (teams_value
        (fun _ => TransportOutcome.response 200 (⟨some [7, 9]⟩ : TeamsBody Nat)))
      (cached_call
        (teams_value
          (fun _ => TransportOutcome.response 200 (⟨some [7, 9]⟩ : TeamsBody Nat)))
        (emptyState TeamsArgs (List Nat) 128) (TeamsArgs.one "PL")).2
      (TeamsArgs.two "PL" (some "2023"))).2.cache.entries.length = 2 := by
  decide

/-- C4 amended: the season default is applied inside the function body,
after the cache key has been computed from the raw argument tuple. An
omitted-season call and an explicit season-"2023" call therefore compute
the same value (same endpoint, same body) but occupy two distinct cache
entries — the explicit call is a separate miss issuing its own network
call — while two calls differing in any raw argument never share a cache
entry: a lookup only ever returns a value stored under exactly its own
argument tuple. -/
theorem teams_cache_key_amended {T : Type}
    (transport : String → TransportOutcome (TeamsBody T))
    (league_code : String) :
    teams_value transport (TeamsArgs.one league_code) =
      teams_value transport (TeamsArgs.two league_code (some "2023"))
    ∧ TeamsArgs.one league_code ≠ TeamsArgs.two league_code (some "2023")
    ∧ (cached_call (teams_value transport)
        (cached_call (teams_value transport)
          (emptyState TeamsArgs (List T) 128) (TeamsArgs.one league_code)).2
        (TeamsArgs.two league_code (some "2023"))).2.netCalls = 2
    ∧ ∀ (K V : Type) [DecidableEq K] (c : LruCache K V) (k : K) (v : V),
        lruFind c k = some v → (k, v) ∈ c.entries := by
  refine ⟨rfl, fun h => TeamsArgs.noConfusion h, ?_, ?_⟩
  · rfl
  · intro K V _ c k v h
    exact lruFind_mem c k v h

/-- Concrete run of the C4 amended theorem: the two calls compute the same
team list yet occupy two entries (two network calls), and a concrete
lookup for key 1 returns only the value stored under key 1. -/
theorem teams_cache_key_amended_witness :
    teams_value
      (fun _ => TransportOutcome.response 200 (⟨some [7, 9]⟩ : TeamsBody Nat))
      (TeamsArgs.one "PL") =
      teams_value
        (fun _ => TransportOutcome.response 200 (⟨some [7, 9]⟩ : TeamsBody Nat))
        (TeamsArgs.two "PL" (some "2023"))
    ∧ (cached_call
        (teams_value
          (fun _ => TransportOutcome.response 200 (⟨some [7, 9]⟩ : TeamsBody Nat)))
        (cached_call
          (teams_value
            (fun _ => TransportOutcome.response 200 (⟨some [7, 9]⟩ : TeamsBody Nat)))
          (emptyState TeamsArgs (List Nat) 128) (TeamsArgs.one "PL")).2
        (TeamsArgs.two "PL" (some "2023"))).2.netCalls = 2
    ∧ ((1 : Nat), (10 : Nat)) ∈
        (LruCache.mk 128 [(1, 10), (2, 20)] : LruCache Nat Nat).entries := by
  have h := teams_cache_key_amended
    (fun _ => TransportOutcome.response 200 (⟨some [7, 9]⟩ : TeamsBody Nat)) "PL"
  exact ⟨h.1, h.2.2.1,
    h.2.2.2 Nat Nat (LruCache.mk 128 [(1, 10), (2, 20)]) 1 10 (by decide)⟩

/-- Running one more call after a sequence of calls. -/
theorem run_calls_snoc {K V : Type} [DecidableEq K] (f : K → V) (ks : List K) :
    ∀ (s : FetchState K V) (k : K),
      run_calls f s (ks ++ [k]) = (cached_call f (run_calls f s ks) k).2 := by
  induction ks with
  | nil => intro s k; rfl
  | cons a rest ih =>
    intro s k
    simp only [List.cons_append, run_calls]
    exact ih _ k

/-- A key lookup over an entry list fails exactly when the key is absent
from the stored keys. -/
theorem find_key_eq_none_iff {K V : Type} [DecidableEq K]
    (l : List (K × V)) (k : K) :
    l.find? (fun e => decide (e.1 = k)) = none ↔ k ∉ l.map Prod.fst := by
  rw [List.find?_eq_none]
  constructor
  · intro h hmem
    obtain ⟨e, he, hfst⟩ := List.mem_map.mp hmem
    exact h e he (decide_eq_true hfst)
  · intro h e he hdec
    exact h (List.mem_map.mpr ⟨e, he, of_decide_eq_true hdec⟩)

/-- A key lookup over the entry list built from a key list and a value
function returns that key with its value. -/
theorem find_in_map_pair {K V : Type} [DecidableEq K] (f : K → V)
    (l : List K) (k : K) (hk : k ∈ l) :
    (l.map (fun x => (x, f x))).find? (fun e => decide (e.1 = k)) =
      some (k, f k) := by
  induction l with
  | nil => cases hk
  | cons a rest ih =>
    by_cases hak : a = k
    · subst hak
      exact List.find?_cons_of_pos _ (by simp)
    · have hkrest : k ∈ rest := by
        rcases List.mem_cons.mp hk with h | h
        · exact absurd h.symm hak
        · exact h
      rw [List.map_cons, List.find?_cons_of_neg _ (by simp [hak]), ih hkrest]

/-- After a sequence of calls on pairwise distinct keys starting from an
empty table: every call is a miss, so the table holds the last `maxsize`
keys in reverse call order, each with its computed value. -/
theorem run_calls_entries {K V : Type} [DecidableEq K] (f : K → V) (m : Nat)
    (ks : List K) (hnd : ks.Nodup) :
    (run_calls f (emptyState K V m) ks).cache.maxsize = m
    ∧ (run_calls f (emptyState K V m) ks).cache.entries =
        (ks.reverse.take m).map (fun x => (x, f x)) := by
  induction ks using List.reverseRecOn with
  | nil => exact ⟨rfl, by simp [run_calls, emptyState]⟩
  | append_singleton ks k ih =>
    have hnd2 := List.nodup_append.mp hnd
    have hkni : k ∉ ks := fun hmem => hnd2.2.2 hmem (List.mem_singleton.mpr rfl)
    obtain ⟨hmax, hent⟩ := ih hnd2.1
    rw [run_calls_snoc]
    have hfind : (run_calls f (emptyState K V m) ks).cache.entries.find?
        (fun e => decide (e.1 = k)) = none := by
      rw [hent, find_key_eq_none_iff]
      intro hkmem
      have hcomp : (Prod.fst ∘ fun x : K => (x, f x)) = id := rfl
      rw [List.map_map, hcomp, List.map_id] at hkmem
      exact hkni (List.mem_reverse.mp (List.take_subset m ks.reverse hkmem))
    simp only [cached_call, hfind]
    constructor
    · exact hmax
    · rw [hmax, hent, List.reverse_append]
      simp only [List.reverse_singleton, List.singleton_append]
      cases m with
      | zero => simp
      | succ m2 =>
        rw [List.take_succ_cons, List.take_succ_cons, List.map_cons]
        congr 1
        rw [← List.map_take, List.take_take]
        congr 2
        exact Nat.min_eq_left (Nat.le_succ m2)

/-- Unfolding of one cached call on a miss. -/
theorem cached_call_miss_eq {K V : Type} [DecidableEq K] (f : K → V)
    (s : FetchState K V) (k : K)
    (h : s.cache.entries.find? (fun e => decide (e.1 = k)) = none) :
    cached_call f s k =
      (f k,
        ⟨⟨s.cache.maxsize, ((k, f k) :: s.cache.entries).take s.cache.maxsize⟩,
          s.netCalls + 1, s.rlWaits + 1⟩) := by
  simp [cached_call, h]

/-- Unfolding of one cached call on a hit. -/
theorem cached_call_hit_eq {K V : Type} [DecidableEq K] (f : K → V)
    (s : FetchState K V) (k : K) (e : K × V)
    (h : s.cache.entries.find? (fun e => decide (e.1 = k)) = some e) :
    cached_call f s k =
      (e.2,
        ⟨⟨s.cache.maxsize,
            (k, e.2) :: s.cache.entries.filter (fun x => decide (¬ x.1 = k))⟩,
          s.netCalls, s.rlWaits⟩) := by
  simp [cached_call, h]

/-- C5 counterexample: the caches are `functools.lru_cache` tables, whose
eviction is access-ordered, not insertion-ordered. With capacity 2, after
inserting keys 1 and 2, reading key 1 (a cache hit) and then inserting
key 3, the first-inserted key 1 is still retrievable while key 2 — a
subsequently inserted key — has been evicted, refuting the claim that the
first-inserted key is evicted regardless of interleaved cache-hit reads. -/
theorem lru_eviction_insertion_order_cx :
    lruFind (run_calls (fun k : Nat => k * 10)
      (emptyState Nat Nat 2) [1, 2, 1, 3]).cache 1 = some 10
    ∧ lruFind (run_calls (fun k : Nat => k * 10)
      (emptyState Nat Nat 2) [1, 2, 1, 3]).cache 2 = none := by
  decide

/-- C5 amended: the cache of each fetch operation has a fixed capacity, and when
the cache is full the least-recently-used entry is evicted, a cache hit
refreshing the recency of its entry; in particular, after inserting capacity+1
distinct keys with no interleaved cache-hit reads, the first-inserted key
is no longer retrievable while all subsequently inserted keys are. -/
theorem lru_eviction_access_order {K V : Type} [DecidableEq K] (f : K → V)
    (m : Nat) (k0 : K) (rest : List K)
    (hnd : (k0 :: rest).Nodup) (hlen : rest.length = m) :
    lruFind (run_calls f (emptyState K V m) (k0 :: rest)).cache k0 = none
    ∧ (∀ k ∈ rest,
        lruFind (run_calls f (emptyState K V m) (k0 :: rest)).cache k =
          some (f k))
    ∧ ∀ (a b c : K) (g : K → V), a ≠ b → a ≠ c → b ≠ c →
        lruFind (run_calls g (emptyState K V 2) [a, b, a, c]).cache a =
          some (g a)
        ∧ lruFind (run_calls g (emptyState K V 2) [a, b, a, c]).cache b =
          none := by
  obtain ⟨hmax, hent⟩ := run_calls_entries f m (k0 :: rest) hnd
  have hrev : (k0 :: rest).reverse.take m = rest.reverse := by
    rw [List.reverse_cons]
    have hlrev : rest.reverse.length = m := by simpa using hlen
    rw [← hlrev, List.take_left]
  rw [hrev] at hent
  have hk0 : k0 ∉ rest := (List.nodup_cons.mp hnd).1
  refine ⟨?_, ?_, ?_⟩
  · unfold lruFind
    rw [hent]
    have hfind : (rest.reverse.map (fun x => (x, f x))).find?
        (fun e => decide (e.1 = k0)) = none := by
      rw [find_key_eq_none_iff]
      intro hmem
      have hcomp : (Prod.fst ∘ fun x : K => (x, f x)) = id := rfl
      rw [List.map_map, hcomp, List.map_id] at hmem
      exact hk0 (List.mem_reverse.mp hmem)
    rw [hfind]
    rfl
  · intro k hk
    unfold lruFind
    rw [hent, find_in_map_pair f rest.reverse k (List.mem_reverse.mpr hk)]
    rfl
  · intro a b c g hab hac hbc
    have hba : ¬ b = a := fun h => hab h.symm
    have hca : ¬ c = a := fun h => hac h.symm
    have hcb : ¬ c = b := fun h => hbc h.symm
    have h1 : (cached_call g (emptyState K V 2) a).2 =
        ⟨⟨2, [(a, g a)]⟩, 1, 1⟩ := by
      rw [cached_call_miss_eq g (emptyState K V 2) a rfl]
      rfl
    have h2 : (cached_call g (⟨⟨2, [(a, g a)]⟩, 1, 1⟩ : FetchState K V) b).2 =
        ⟨⟨2, [(b, g b), (a, g a)]⟩, 2, 2⟩ := by
      have hf : ([(a, g a)] : List (K × V)).find?
          (fun e => decide (e.1 = b)) = none := by
        rw [List.find?_cons_of_neg _ (by simpa using hab)]
        rfl
      rw [cached_call_miss_eq g _ b hf]
      rfl
    have h3 : (cached_call g
        (⟨⟨2, [(b, g b), (a, g a)]⟩, 2, 2⟩ : FetchState K V) a).2 =
        ⟨⟨2, [(a, g a), (b, g b)]⟩, 2, 2⟩ := by
      have hf : ([(b, g b), (a, g a)] : List (K × V)).find?
          (fun e => decide (e.1 = a)) = some (a, g a) := by
        rw [List.find?_cons_of_neg _ (by simpa using hba)]
        exact List.find?_cons_of_pos _ (by simp)
      rw [cached_call_hit_eq g _ a (a, g a) hf]
      have hfil : ([(b, g b), (a, g a)] : List (K × V)).filter
          (fun x => decide (¬ x.1 = a)) = [(b, g b)] := by
        rw [List.filter_cons_of_pos (by simpa using hba)]
        rw [List.filter_cons_of_neg (by simp)]
        rfl
      rw [hfil]
    have h4 : (cached_call g
        (⟨⟨2, [(a, g a), (b, g b)]⟩, 2, 2⟩ : FetchState K V) c).2 =
        ⟨⟨2, [(c, g c), (a, g a)]⟩, 3, 3⟩ := by
      have hf : ([(a, g a), (b, g b)] : List (K × V)).find?
          (fun e => decide (e.1 = c)) = none := by
        rw [List.find?_cons_of_neg _ (by simpa using hac)]
        rw [List.find?_cons_of_neg _ (by simpa using hbc)]
        rfl
      rw [cached_call_miss_eq g _ c hf]
      rfl
    have hrun : run_calls g (emptyState K V 2) [a, b, a, c] =
        ⟨⟨2, [(c, g c), (a, g a)]⟩, 3, 3⟩ := by
      simp only [run_calls]
      rw [h1, h2, h3, h4]
    rw [hrun]
    constructor
    · unfold lruFind
      rw [List.find?_cons_of_neg _ (by simpa using hca)]
      rw [List.find?_cons_of_pos _ (by simp)]
      rfl
    · unfold lruFind
      rw [List.find?_cons_of_neg _ (by simpa using hcb)]
      rw [List.find?_cons_of_neg _ (by simpa using hab)]
      rfl

/-- Concrete run of the C5 amended theorem: capacity 2, keys 1, 2, 3
inserted in order with no interleaved reads — key 1 is evicted, keys 2 and
3 remain retrievable with their values. -/
theorem lru_eviction_access_order_witness :
    lruFind (run_calls (fun k : Nat => k * 10)
      (emptyState Nat Nat 2) [1, 2, 3]).cache 1 = none
    ∧ lruFind (run_calls (fun k : Nat => k * 10)
      (emptyState Nat Nat 2) [1, 2, 3]).cache 2 = some 20
    ∧ lruFind (run_calls (fun k : Nat => k * 10)
      (emptyState Nat Nat 2) [1, 2, 3]).cache 3 = some 30
    ∧ lruFind (run_calls (fun k : Nat => k * 10)
      (emptyState Nat Nat 2) [1, 2, 1, 3]).cache 1 = some 10
    ∧ lruFind (run_calls (fun k : Nat => k * 10)
      (emptyState Nat Nat 2) [1, 2, 1, 3]).cache 2 = none := by
  have h := lru_eviction_access_order (fun k : Nat => k * 10) 2 1 [2, 3]
    (by decide) rfl
  have h2 := h.2.2 1 2 3 (fun k : Nat => k * 10)
    (by decide) (by decide) (by decide)
  exact ⟨h.1, h.2.1 2 (by decide), h.2.1 3 (by decide), h2.1, h2.2⟩

end FootballApp
